import Mathlib

/-!
Verification of the echo push-to-talk dictation pipeline.

This file shallowly embeds the recording/transcription core of the
repository (src-tauri/src: main.rs, record.rs, audio.rs, whisper.rs) and
proves or refutes the specified properties of the pipeline.  Sample values
are opaque to every property below (only counts, emptiness and control flow
are at stake), so samples are represented by integers.  External
collaborators (the cpal device host, the file system, the samplerate and
whisper libraries) are modelled as explicit environment parameters giving
the outcome of each fallible call.
-/

namespace Echo

/-- Sample values carried through the pipeline.  The verified properties
depend only on how many samples flow through each stage, never on their
numeric values, so one integer stands for one sample. -/
abbrev Sample := Int

/-- Embeds cpal SampleFormat (cpal 0.15): the sample formats an input device
can declare. -/
inductive SampleFormat
  | I8 | I16 | I32 | I64 | U8 | U16 | U32 | U64 | F32 | F64
deriving DecidableEq

/-- Embeds cpal SampleFormat is_float: true exactly on the two float formats. -/
def SampleFormat.is_float : SampleFormat → Bool
  | .F32 => true
  | .F64 => true
  | _ => false

/-- Embeds cpal SampleFormat sample_size: byte width of one sample. -/
def SampleFormat.sample_size : SampleFormat → Nat
  | .I8 => 1 | .U8 => 1
  | .I16 => 2 | .U16 => 2
  | .I32 => 4 | .U32 => 4 | .F32 => 4
  | .I64 => 8 | .U64 => 8 | .F64 => 8

/-- Embeds hound SampleFormat: how samples are encoded in the WAV container. -/
inductive HSampleFormat
  | float
  | int
deriving DecidableEq

/-- Embeds audio.rs sample_format: float device formats map to the float WAV
encoding, every other format to the integer encoding. -/
def sample_format (format : SampleFormat) : HSampleFormat :=
  if format.is_float then .float else .int

/-- Embeds cpal SupportedStreamConfig, the fields wav_spec_from_config reads. -/
structure SupportedStreamConfig where
  channels : Nat
  sample_rate : Nat
  format : SampleFormat
deriving DecidableEq

/-- Embeds hound WavSpec. -/
structure WavSpec where
  channels : Nat
  sample_rate : Nat
  bits_per_sample : Nat
  sample_format : HSampleFormat
deriving DecidableEq

/-- Embeds audio.rs wav_spec_from_config. -/
def wav_spec_from_config (config : SupportedStreamConfig) : WavSpec :=
  { channels := config.channels,
    sample_rate := config.sample_rate,
    bits_per_sample := config.format.sample_size * 8,
    sample_format := sample_format config.format }

/-- Embeds WavWriterHandle, the Arc of a Mutex of an Option of a WavWriter
from audio.rs: locked says whether another thread currently holds the mutex;
writer holds the samples appended to the container so far, or none once the
writer has been taken out and dropped (the container finalized). -/
structure WavWriterHandle (U : Type) where
  locked : Bool
  writer : Option (List U)
deriving DecidableEq

/-- Embeds audio.rs write_input_data: try_lock returns at once when the lock
is held, so the buffer is dropped; with the lock acquired, a missing writer
makes the call a no-op; otherwise every sample of the buffer is converted
with the FromSample instance and appended to the container. -/
def write_input_data {T U : Type} (from_sample : T → U) (input : List T)
    (writer : WavWriterHandle U) : WavWriterHandle U :=
  if writer.locked then writer
  else
    match writer.writer with
    | none => writer
    | some w => { locked := writer.locked, writer := some (w ++ input.map from_sample) }

/-- The three sample-conversion paths installed by the stream callbacks in
Record start: f32 to f32, u16 to i16 (FromSample re-bias), i16 to i16. -/
inductive ConvPath
  | f32_to_f32
  | u16_to_i16
  | i16_to_i16
deriving DecidableEq

/-- Result of the stream-building match in Record start: a stream whose
callback uses the given conversion path into the sink, or a panic from the
wildcard arm. -/
inductive StreamBuild
  | stream (path : ConvPath)
  | panicked
deriving DecidableEq

/-- Embeds the match on the device sample format in Record start (record.rs
lines 90 to 110): F32, U16 and I16 build an input stream whose callback runs
write_input_data with the corresponding conversion; every other format hits
the wildcard arm, which panics with the message Unsupported sample format
rather than returning an error value. -/
def build_input_stream_for : SampleFormat → StreamBuild
  | .F32 => .stream .f32_to_f32
  | .U16 => .stream .u16_to_i16
  | .I16 => .stream .i16_to_i16
  | _ => .panicked

/-- One crossbeam sender for the stop signal: id distinguishes distinct
channels, connected records whether the matching receiver is still alive. -/
structure StopSender where
  id : Nat
  connected : Bool
deriving DecidableEq

/-- Embeds RecordState from main.rs, the Arc of a Mutex of an Option of the
stop-signal sender managed by the tauri application. -/
structure RecordState where
  sender : Option StopSender
deriving DecidableEq

/-- Outcome of one command invocation: a normal return or a panic of the
calling thread. -/
inductive CallOutcome
  | ok
  | panicked
deriving DecidableEq

/-- Embeds main.rs start_recording (lines 59 to 72): the command locks the
state, creates a fresh channel and stores its sender, unconditionally
replacing whatever sender was stored before, then spawns the recording
thread.  The Option String component is the error the command surfaces to
its caller, which is always none: the function body contains no rejection
path. -/
def start_recording (fresh : Nat) (_s : RecordState) : RecordState × Option String :=
  ({ sender := some { id := fresh, connected := true } }, none)

/-- Embeds main.rs stop_recording (lines 74 to 81): take the stored sender
out of the state; when none is present nothing happens; otherwise the stop
signal is sent, where send followed by unwrap panics exactly when the
receiver has already been dropped. -/
def stop_recording (s : RecordState) : RecordState × CallOutcome :=
  match s.sender with
  | none => ({ sender := none }, .ok)
  | some tx => ({ sender := none }, if tx.connected then .ok else .panicked)

/-- Output-length law of the samplerate_rs convert function (libsamplerate
src_simple): the input is read as interleaved frames of the given channel
count, the frame count is scaled by to_rate over from_rate, and the channel
count is preserved in the output. -/
def convert_output_len (from_rate to_rate channels n : Nat) : Nat :=
  n / channels * to_rate / from_rate * channels

/-- Model of samplerate_rs convert.  The library reports an error for an
invalid conversion setup (a zero rate or zero channel count); otherwise it
produces a converted buffer whose length follows convert_output_len.  The
output sample values are the sinc filter response and are not modelled here;
every property below depends only on the output length. -/
def convert (from_rate to_rate channels : Nat) (input : List Sample) :
    Except Unit (List Sample) :=
  if from_rate = 0 ∨ to_rate = 0 ∨ channels = 0 then .error ()
  else .ok (List.replicate (convert_output_len from_rate to_rate channels input.length) 0)

/-- Output length of the resampling call in Record start (record.rs lines
164 to 171): convert is invoked with the WAV sample rate, target rate 16000
and the literal channel count 1, whatever channel count the recording
declared. -/
def record_resample_len (sample_rate n : Nat) : Nat :=
  convert_output_len sample_rate 16000 1 n

/-- Modelled from the spec: the length the specification asserts for the
normalized sample sequence, source frames scaled by 16000 over the source
rate, proportional to the duration alone and independent of the channel
count. -/
def spec_resample_len (sample_rate frames : Nat) : Nat :=
  frames * 16000 / sample_rate

/-- Outcome of the full inference call as exposed through whisper_rs:
success with the decoded segment texts in order, or an internal failure. -/
inductive FullOutcome
  | success (segments : List String)
  | failure

/-- Behavior of the whisper_rs library calls that transcribe makes: whether
the model loads, whether a state can be created, and the inference outcome
as a function of the input samples. -/
structure WhisperLib where
  load_ok : Bool
  create_state_ok : Bool
  full : List Sample → FullOutcome

/-- Result of whisper.rs transcribe: the function either returns Ok with the
joined text or panics.  Every fallible library call inside it is followed by
expect or unwrap, so no error value is ever returned to the caller. -/
inductive TranscribeOutcome
  | ok (text : String)
  | panicked
deriving DecidableEq

/-- Embeds whisper.rs transcribe: load the model (expect panics on failure),
create a state (expect panics on failure), run full inference on the samples
(expect panics on failure), then join the segment texts with no separator
and return Ok.  The input sample count is never inspected. -/
def transcribe (lib : WhisperLib) (samples : List Sample) : TranscribeOutcome :=
  if lib.load_ok = false then .panicked
  else if lib.create_state_ok = false then .panicked
  else
    match lib.full samples with
    | .failure => .panicked
    | .success segments => .ok (String.join segments)

/-- Modelled from whisper.cpp behavior: full inference succeeds and produces
zero segments when the input holds less than one second of audio, hence in
particular for empty input. -/
def whisper_short_input_lib : WhisperLib :=
  { load_ok := true, create_state_ok := true, full := fun _ => .success [] }

/-- How the blocking wait on the stop channel ends: a message arrives, or
the channel is disconnected because every sender was dropped first. -/
inductive RecvResult
  | msg
  | disconnected
deriving DecidableEq

/-- How one run of Record start ends: a normal return, an error returned to
the caller, or a panic of the recording thread.  Error payloads are stage
labels standing for the underlying library error values. -/
inductive RunResult
  | ok
  | error (msg : String)
  | panicked
deriving DecidableEq

/-- Observable trace of one run of Record start: the change_status payloads
emitted in order, whether the resampling call was reached, whether the
transcription call was reached, and how the run ended. -/
structure RunTrace where
  statuses : List String
  resampled : Bool
  transcribed : Bool
  result : RunResult
deriving DecidableEq

/-- Environment of one Record start run: what the host, the input device,
the file system and the whisper library do at each fallible step, plus how
many frames the device callback delivered into the sink while streaming. -/
structure CaptureEnv where
  has_device : Bool
  config_ok : Bool
  cfg : SupportedStreamConfig
  data_dir_ok : Bool
  wav_create_ok : Bool
  stream_build_ok : Bool
  play_ok : Bool
  recv : RecvResult
  wav_open_ok : Bool
  captured_frames : Nat
  resolve_ok : Bool
  lib : WhisperLib

/-- Embeds Record start (record.rs lines 38 to 200), step by step in source
order: emit the recording status; resolve the default input device, its
configuration, the data directory and the WAV writer, each returning an
error early on failure; build the input stream by sample format (the
wildcard arm panics, and expect panics when the device declines the stream
or refuses to play); block on the stop channel, where a disconnected channel
makes recv return an error and expect panic; after the signal, drop the
stream and writer (finalizing the container), emit the transcribing status
and reopen the container, returning the error when it cannot be read as a
WAV; read the samples as f32, which panics on the first sample of an
integer-encoded container since hound does not convert encodings; resample
through convert with channel count 1 (unwrap panics on a convert error);
resolve the model path (expect panics on failure); transcribe; paste errors
are discarded; finally emit the idle status and return Ok. -/
def record_start (env : CaptureEnv) : RunTrace :=
  if env.has_device = false then
    { statuses := ["recording"], resampled := false, transcribed := false,
      result := .error "No default input device" }
  else if env.config_ok = false then
    { statuses := ["recording"], resampled := false, transcribed := false,
      result := .error "default_input_config failed" }
  else if env.data_dir_ok = false then
    { statuses := ["recording"], resampled := false, transcribed := false,
      result := .error "Failed to get app data directory" }
  else if env.wav_create_ok = false then
    { statuses := ["recording"], resampled := false, transcribed := false,
      result := .error "WavWriter create failed" }
  else
    match build_input_stream_for env.cfg.format with
    | .panicked =>
      { statuses := ["recording"], resampled := false, transcribed := false,
        result := .panicked }
    | .stream _ =>
      if env.stream_build_ok = false then
        { statuses := ["recording"], resampled := false, transcribed := false,
          result := .panicked }
      else if env.play_ok = false then
        { statuses := ["recording"], resampled := false, transcribed := false,
          result := .panicked }
      else
        match env.recv with
        | .disconnected =>
          { statuses := ["recording"], resampled := false, transcribed := false,
            result := .panicked }
        | .msg =>
          if env.wav_open_ok = false then
            { statuses := ["recording", "transcribing"], resampled := false,
              transcribed := false, result := .error "Failed to read file" }
          else
            if (wav_spec_from_config env.cfg).sample_format = HSampleFormat.int ∧
                env.captured_frames * env.cfg.channels ≠ 0 then
              { statuses := ["recording", "transcribing"], resampled := false,
                transcribed := false, result := .panicked }
            else
              match convert (wav_spec_from_config env.cfg).sample_rate 16000 1
                  (List.replicate (env.captured_frames * env.cfg.channels) 0) with
              | .error _ =>
                { statuses := ["recording", "transcribing"], resampled := true,
                  transcribed := false, result := .panicked }
              | .ok audio_data =>
                if env.resolve_ok = false then
                  { statuses := ["recording", "transcribing"], resampled := true,
                    transcribed := false, result := .panicked }
                else
                  match transcribe env.lib audio_data with
                  | .panicked =>
                    { statuses := ["recording", "transcribing"], resampled := true,
                      transcribed := true, result := .panicked }
                  | .ok _text =>
                    { statuses := ["recording", "transcribing", "idle"],
                      resampled := true, transcribed := true, result := .ok }

/-- A run environment in which every external step succeeds: a mono 48 kHz
F32 default device, the stop signal arrives, the finalized container opens,
and the whisper library behaves as whisper.cpp does on short input.  The
device callback delivers zero frames, matching the immediate-cancellation
scenario. -/
def happy_env : CaptureEnv :=
  { has_device := true, config_ok := true,
    cfg := { channels := 1, sample_rate := 48000, format := .F32 },
    data_dir_ok := true, wav_create_ok := true, stream_build_ok := true,
    play_ok := true, recv := .msg, wav_open_ok := true,
    captured_frames := 0, resolve_ok := true,
    lib := whisper_short_input_lib }

/-- C7.  The sink write is a non-blocking try_lock: whenever the sink lock is
currently held, write_input_data returns at once with the handle unchanged,
so the buffer is silently dropped and no sample is appended. -/
theorem write_locked_drops_buffer {T U : Type} (from_sample : T → U)
    (input : List T) (h : WavWriterHandle U) (hl : h.locked = true) :
    write_input_data from_sample input h = h := by
  simp [write_input_data, hl]

/-- Witness for write_locked_drops_buffer: a held lock with one queued sample
and the identity conversion leaves the handle unchanged. -/
theorem write_locked_drops_buffer_witness :
    write_input_data (fun x : Int => x) [7] { locked := true, writer := some [] } =
      { locked := true, writer := some [] } :=
  write_locked_drops_buffer (fun x : Int => x) [7]
    { locked := true, writer := some [] } rfl

/-- C8.  Once the writer has been taken out of the handle (the container
finalized), every later write_input_data call is a no-op: the handle is
unchanged, so no sample is ever appended to the container again. -/
theorem write_after_finalize_noop {T U : Type} (from_sample : T → U)
    (input : List T) (h : WavWriterHandle U) (hw : h.writer = none) :
    write_input_data from_sample input h = h := by
  unfold write_input_data
  rw [hw]
  split <;> rfl

/-- Witness for write_after_finalize_noop: writing one sample to a finalized,
unlocked handle leaves it unchanged. -/
theorem write_after_finalize_noop_witness :
    write_input_data (fun x : Int => x) [7] { locked := false, writer := none } =
      { locked := false, writer := none } :=
  write_after_finalize_noop (fun x : Int => x) [7]
    { locked := false, writer := none } rfl

/-- C9.  stop_recording is idempotent: a second call right after a first one
leaves the state exactly as the first call left it and returns normally
doing nothing, and a call with no stored sender is a no-op that returns
normally. -/
theorem stop_recording_idempotent (s : RecordState) :
    stop_recording (stop_recording s).1 = ((stop_recording s).1, CallOutcome.ok) ∧
      (s.sender = none → stop_recording s = (s, CallOutcome.ok)) := by
  constructor
  · cases h : s.sender <;> simp [stop_recording, h]
  · intro h
    cases s
    simp_all [stop_recording]

/-- Witness for stop_recording_idempotent: with no active session the call
is a no-op that returns normally. -/
theorem stop_recording_idempotent_witness :
    stop_recording { sender := none } = ({ sender := none }, CallOutcome.ok) :=
  (stop_recording_idempotent { sender := none }).2 rfl

/-- C1 counterexample: with a session active (the sender of channel 0 is
stored), start_recording does not reject the call: it surfaces no error and
replaces the stored sender with the fresh one of channel 1, so the original
session state is overwritten rather than left untouched. -/
theorem start_recording_busy_counterexample :
    (start_recording 1 { sender := some { id := 0, connected := true } }).2 = none ∧
      (start_recording 1 { sender := some { id := 0, connected := true } }).1 =
        { sender := some { id := 1, connected := true } } ∧
      (start_recording 1 { sender := some { id := 0, connected := true } }).1 ≠
        { sender := some { id := 0, connected := true } } := by
  refine ⟨rfl, rfl, ?_⟩
  decide

/-- C1 amended: start_recording never rejects a concurrent begin; for every
prior state it stores the fresh sender, dropping whatever sender was stored
(which closes the previous session's stop channel), and surfaces no error;
no SessionBusyError value exists in the command. -/
theorem start_recording_always_overwrites (fresh : Nat) (s : RecordState) :
    start_recording fresh s =
      ({ sender := some { id := fresh, connected := true } }, none) := rfl

/-- C2 counterexample: a stereo recording at 16000 Hz holding 8000 frames
stores 16000 interleaved samples; the resampling call of Record start
produces 16000 output samples, not the 8000 that the specified downmix to
mono at the same rate would give, so the output length grows with the
channel count and multi-channel input is not downmixed. -/
theorem resample_stereo_counterexample :
    record_resample_len 16000 (8000 * 2) = 16000 ∧
      spec_resample_len 16000 8000 = 8000 ∧
      record_resample_len 16000 (8000 * 2) ≠ spec_resample_len 16000 8000 := by
  refine ⟨by decide, by decide, by decide⟩

/-- C2 amended: the resampling call treats the raw interleaved sample count n
as mono, so its output length is n * 16000 / r for source rate r; at source
rate 16000 the length is exactly preserved (identity-rate support), which
for a recording of f frames in c channels means an output of c times the
length the spec asserts: the length scales with the channel count instead of
being channel-independent. -/
theorem resample_len_characterization (r n f c : Nat) :
    record_resample_len r n = n * 16000 / r ∧
      record_resample_len 16000 n = n ∧
      record_resample_len 16000 (f * c) = c * spec_resample_len 16000 f := by
  refine ⟨?_, ?_, ?_⟩
  · simp [record_resample_len, convert_output_len]
  · simp [record_resample_len, convert_output_len]
  · simp [record_resample_len, convert_output_len, spec_resample_len]
    ring

/-- C6 counterexample: with the whisper library behaving as whisper.cpp does
on input shorter than one second (success with zero segments), transcribe on
the empty sample sequence returns Ok with the empty string: no failure is
raised and the silently empty result is indistinguishable from recorded
silence. -/
theorem transcribe_empty_counterexample :
    transcribe whisper_short_input_lib [] = TranscribeOutcome.ok "" := rfl

/-- C6 amended: transcribe never inspects the input length and never returns
an error value: with the model loaded and a state created, a zero-segment
success of the inference call on empty input yields Ok with the joined (for
zero segments, empty) text, and an inference failure panics the thread
through expect instead of surfacing an InferenceError. -/
theorem transcribe_no_empty_rejection (lib : WhisperLib)
    (hload : lib.load_ok = true) (hstate : lib.create_state_ok = true) :
    (lib.full [] = FullOutcome.failure →
        transcribe lib [] = TranscribeOutcome.panicked) ∧
      (∀ segments, lib.full [] = FullOutcome.success segments →
        transcribe lib [] = TranscribeOutcome.ok (String.join segments)) := by
  constructor
  · intro hf
    simp [transcribe, hload, hstate, hf]
  · intro segments hf
    simp [transcribe, hload, hstate, hf]

/-- Witness for transcribe_no_empty_rejection at the short-input library
behavior: empty input produces Ok with the join of no segments. -/
theorem transcribe_no_empty_rejection_witness :
    transcribe whisper_short_input_lib [] = TranscribeOutcome.ok (String.join []) :=
  (transcribe_no_empty_rejection whisper_short_input_lib rfl rfl).2 [] rfl

/-- C3 counterexample: in the zero-samples-captured run (happy_env delivers
zero frames), Record start does not stop with an EmptyRecordingError: the
reopened header-only container passes the only check performed, the
resampling call and the transcription call are both reached, and the run
returns Ok. -/
theorem zero_capture_counterexample :
    (record_start happy_env).resampled = true ∧
      (record_start happy_env).transcribed = true ∧
      (record_start happy_env).result = RunResult.ok := by
  decide

/-- C3 amended: when capture stops with zero samples accepted, the only
validation Record start performs is that the finalized file opens as a WAV,
which succeeds for the header-only container; the run then always reaches
the resampling call, and no run on this path ever returns an error value (in
particular no EmptyRecordingError, which does not exist in the code). -/
theorem zero_capture_no_validation (env : CaptureEnv)
    (hd : env.has_device = true) (hc : env.config_ok = true)
    (hdir : env.data_dir_ok = true) (hwc : env.wav_create_ok = true)
    (hb : build_input_stream_for env.cfg.format ≠ StreamBuild.panicked)
    (hsb : env.stream_build_ok = true) (hp : env.play_ok = true)
    (hr : env.recv = RecvResult.msg) (hwo : env.wav_open_ok = true)
    (hn : env.captured_frames = 0) :
    (record_start env).resampled = true ∧
      ∀ msg, (record_start env).result ≠ RunResult.error msg := by
  cases hB : build_input_stream_for env.cfg.format with
  | panicked => exact absurd hB hb
  | stream p =>
    simp only [record_start, hd, hc, hdir, hwc, hB, hsb, hp, hr, hwo, hn]
    simp only [wav_spec_from_config, sample_format, convert, convert_output_len,
      Nat.zero_mul]
    repeat' split
    all_goals simp_all

/-- Witness for zero_capture_no_validation at happy_env: the zero-frame run
reaches resampling and does not end in an EmptyRecordingError. -/
theorem zero_capture_no_validation_witness :
    (record_start happy_env).resampled = true ∧
      (record_start happy_env).result ≠ RunResult.error "EmptyRecordingError" :=
  ⟨(zero_capture_no_validation happy_env rfl rfl rfl rfl (by decide) rfl rfl rfl
      rfl rfl).1,
    (zero_capture_no_validation happy_env rfl rfl rfl rfl (by decide) rfl rfl rfl
      rfl rfl).2 "EmptyRecordingError"⟩

/-- C4 counterexample: when the finalized file fails to reopen as a WAV,
Record start returns the error to its caller, but the last status emitted is
transcribing: no idle status follows, so the externally observable status
does not return to Idle on this failing attempt. -/
theorem stage_failure_counterexample :
    record_start { happy_env with wav_open_ok := false } =
      { statuses := ["recording", "transcribing"], resampled := false,
        transcribed := false, result := RunResult.error "Failed to read file" } ∧
      "idle" ∉ (record_start { happy_env with wav_open_ok := false }).statuses := by
  decide

/-- Exhaustive enumeration of the traces a Record start run can produce: one
trace per terminating point of the function body. -/
theorem record_start_trace_cases (env : CaptureEnv) :
    record_start env ∈
      ([{ statuses := ["recording"], resampled := false, transcribed := false,
          result := RunResult.error "No default input device" },
        { statuses := ["recording"], resampled := false, transcribed := false,
          result := RunResult.error "default_input_config failed" },
        { statuses := ["recording"], resampled := false, transcribed := false,
          result := RunResult.error "Failed to get app data directory" },
        { statuses := ["recording"], resampled := false, transcribed := false,
          result := RunResult.error "WavWriter create failed" },
        { statuses := ["recording"], resampled := false, transcribed := false,
          result := RunResult.panicked },
        { statuses := ["recording", "transcribing"], resampled := false,
          transcribed := false, result := RunResult.error "Failed to read file" },
        { statuses := ["recording", "transcribing"], resampled := false,
          transcribed := false, result := RunResult.panicked },
        { statuses := ["recording", "transcribing"], resampled := true,
          transcribed := false, result := RunResult.panicked },
        { statuses := ["recording", "transcribing"], resampled := true,
          transcribed := true, result := RunResult.panicked },
        { statuses := ["recording", "transcribing", "idle"], resampled := true,
          transcribed := true, result := RunResult.ok }] : List RunTrace) := by
  unfold record_start
  repeat' split
  all_goals decide

/-- C4 amended: no stage failure is retried (each stage runs at most once per
attempt) and every stage failure terminates the attempt, by an error return
or by a panic; but the idle status is emitted exactly on the fully
successful run: every failing run stops after emitting recording, or
recording then transcribing, and never emits idle. -/
theorem idle_emitted_iff_success (env : CaptureEnv) :
    ((record_start env).result = RunResult.ok ↔
        (record_start env).statuses = ["recording", "transcribing", "idle"]) ∧
      ((record_start env).statuses = ["recording"] ∨
        (record_start env).statuses = ["recording", "transcribing"] ∨
        (record_start env).statuses = ["recording", "transcribing", "idle"]) := by
  have h := record_start_trace_cases env
  simp only [List.mem_cons, List.not_mem_nil, or_false] at h
  rcases h with h | h | h | h | h | h | h | h | h | h <;> rw [h] <;> decide

/-- C5 counterexample: with every sender of the stop channel dropped before a
signal is sent, the run dies in a panic right after emitting the recording
status, which is not the effect of a received cancellation signal: the same
environment with the signal delivered finalizes, transcribes and returns
Ok. -/
theorem channel_drop_counterexample :
    record_start { happy_env with recv := RecvResult.disconnected } =
      { statuses := ["recording"], resampled := false, transcribed := false,
        result := RunResult.panicked } ∧
      record_start { happy_env with recv := RecvResult.disconnected } ≠
        record_start happy_env := by
  decide

/-- C5 amended: when the stop channel is dropped without a signal, recv
returns an error and the following expect panics the recording thread: the
run ends in a panic with only the recording status emitted, and none of the
cancellation-path effects (stop chime, transcribing status, finalize and
transcribe continuation) occur. -/
theorem channel_drop_panics (env : CaptureEnv)
    (hd : env.has_device = true) (hc : env.config_ok = true)
    (hdir : env.data_dir_ok = true) (hwc : env.wav_create_ok = true)
    (hb : build_input_stream_for env.cfg.format ≠ StreamBuild.panicked)
    (hsb : env.stream_build_ok = true) (hp : env.play_ok = true)
    (hr : env.recv = RecvResult.disconnected) :
    record_start env =
      { statuses := ["recording"], resampled := false, transcribed := false,
        result := RunResult.panicked } := by
  cases hB : build_input_stream_for env.cfg.format with
  | panicked => exact absurd hB hb
  | stream p =>
    simp only [record_start, hd, hc, hdir, hwc, hB, hsb, hp, hr]
    repeat' split
    all_goals simp_all

/-- Witness for channel_drop_panics: a stereo 44100 Hz I16 device whose stop
channel is dropped without a signal panics the run after the recording
status. -/
theorem channel_drop_panics_witness :
    record_start
        { happy_env with
          recv := RecvResult.disconnected,
          cfg := { channels := 2, sample_rate := 44100, format := SampleFormat.I16 } } =
      { statuses := ["recording"], resampled := false, transcribed := false,
        result := RunResult.panicked } :=
  channel_drop_panics _ rfl rfl rfl rfl (by decide) rfl rfl rfl

/-- C10.  The stream-building match panics exactly on device formats other
than F32, U16 and I16 (only those three reach a conversion path and the
sink), and when the default device declares any other format the run dies in
a panic right after emitting the recording status instead of returning a
capture-stage error value. -/
theorem unsupported_format_panics (f : SampleFormat) (env : CaptureEnv)
    (hd : env.has_device = true) (hc : env.config_ok = true)
    (hdir : env.data_dir_ok = true) (hwc : env.wav_create_ok = true)
    (hf : env.cfg.format = f)
    (h1 : f ≠ SampleFormat.F32) (h2 : f ≠ SampleFormat.U16)
    (h3 : f ≠ SampleFormat.I16) :
    build_input_stream_for f = StreamBuild.panicked ∧
      record_start env =
        { statuses := ["recording"], resampled := false, transcribed := false,
          result := RunResult.panicked } := by
  have hpan : build_input_stream_for f = StreamBuild.panicked := by
    cases f <;> simp_all [build_input_stream_for]
  refine ⟨hpan, ?_⟩
  rw [← hf] at hpan
  simp [record_start, hd, hc, hdir, hwc, hpan]

/-- Witness for unsupported_format_panics: a device declaring the F64 format
hits the wildcard arm and panics the run after the recording status. -/
theorem unsupported_format_panics_witness :
    build_input_stream_for SampleFormat.F64 = StreamBuild.panicked ∧
      record_start { happy_env with
          cfg := { channels := 1, sample_rate := 48000, format := SampleFormat.F64 } } =
        { statuses := ["recording"], resampled := false, transcribed := false,
          result := RunResult.panicked } :=
  unsupported_format_panics SampleFormat.F64 _ rfl rfl rfl rfl rfl
    (by decide) (by decide) (by decide)

end Echo
